import Mathlib

/-!
Verification of the open-in-terminal plugin core (src/main.ts).

The two pure functions of the plugin, `inferTerminalCommand` and
`createTerminalCommand`, are embedded below over JS strings modelled as
lists of characters.  The ambient `os.platform()` value read by the source
is passed as an explicit `platform` argument; everything else follows the
source line by line.  The normalisation performed by the settings tab
(`TerminalSettingTab.display`, the `onChange` handlers) is embedded as
`normalizeSetting`.
-/

/-- JS strings are modelled as lists of characters. -/
abbrev Str : Type := List Char

/-- View a Lean string literal in the list-of-characters model. -/
def strLit (s : String) : Str := s.data

/-- JS `String.prototype.trim()`: strip leading and trailing whitespace. -/
def trimJS (s : Str) : Str :=
  ((s.dropWhile Char.isWhitespace).reverse.dropWhile Char.isWhitespace).reverse

/-- JS `Array.prototype.join(' ')`, as used for `termCmd.args.join(' ')`. -/
def joinSpace (xs : List Str) : Str := List.intercalate [' '] xs

/-- The backtick interpolation `"${s}"` of src/main.ts: wrap a string in
double quotes (used for `quotedPath` and `quotedTerminal`). -/
def quoteStr (s : Str) : Str := '"' :: (s ++ ['"'])

/-- ECMAScript GetSubstitution for a string replacement and a regular
expression with no capture groups and no named groups, as applies to
`/\x7bpath\x7d/g`: in the replacement string, `$$` yields `$`, `$&` yields
the matched text, `$` followed by the backtick character yields the portion
of the subject before the match, `$` followed by the apostrophe character
yields the portion after the match; every other `$` sequence (including
`$n`, which with zero capture groups is not a valid capture reference, and
`$<`, which without named groups stays literal) is copied through. -/
def substDollar (matched before after : Str) : Str → Str
  | '$' :: '$' :: rest => '$' :: substDollar matched before after rest
  | '$' :: '&' :: rest => matched ++ substDollar matched before after rest
  | '$' :: '\x60' :: rest => before ++ substDollar matched before after rest
  | '$' :: '\x27' :: rest => after ++ substDollar matched before after rest
  | c :: rest => c :: substDollar matched before after rest
  | [] => []

/-- The scan of JS `String.prototype.replace` with a global regexp: find
each `{path}` occurrence left to right, insert the GetSubstitution of the
replacement for that match, and resume after the match without rescanning
the inserted text.  `acc` is the portion of the original subject already
consumed, so at a match `acc` is the text before it and the remainder of
the subject is the text after it. -/
def replaceScan (repl acc : Str) : Str → Str
  | '\x7b' :: 'p' :: 'a' :: 't' :: 'h' :: '\x7d' :: rest =>
      substDollar (strLit "{path}") acc rest repl
        ++ replaceScan repl (acc ++ strLit "{path}") rest
  | c :: rest => c :: replaceScan repl (acc ++ [c]) rest
  | [] => []

/-- JS `customArgs.replace(/\x7bpath\x7d/g, r)` from src/main.ts line 95:
replace every occurrence of the literal token `{path}` by the
GetSubstitution-processed replacement `r`. -/
def replacePath (r s : Str) : Str := replaceScan r [] s

/-- The `TerminalCommand` type of src/main.ts. -/
structure TerminalCommand where
  binary : Str
  args : List Str

/-- The `PluginSettings` interface of src/main.ts: two optional string
fields, `fp-ts` `Option` modelled by Lean `Option`. -/
structure PluginSettings where
  terminalBin : Option Str
  terminalArgs : Option Str

/-- `DEFAULT_SETTINGS` of src/main.ts: both fields `none`. -/
def DEFAULT_SETTINGS : PluginSettings := ⟨none, none⟩

/-- `inferTerminalCommand` of src/main.ts lines 26-48: switch on the
platform identifier, `left` with the offending identifier otherwise. -/
def inferTerminalCommand (platform : Str) : Except Str TerminalCommand :=
  if platform = strLit "win32" then
    .ok ⟨strLit "powershell.exe", [strLit "-noexit"]⟩
  else if platform = strLit "darwin" then
    .ok ⟨strLit "Terminal", []⟩
  else if platform = strLit "linux" then
    .ok ⟨strLit "gnome-terminal", [strLit "--working-directory"]⟩
  else
    .error (strLit "Unsupported platform: " ++ platform)

/-- `createTerminalCommand` of src/main.ts lines 50-117.  The fp-ts
`fold` on `settings.terminalBin` is the `match`; the `eitherFold` on
`inferTerminalCommand` is the inner `match`; the template strings are
spelled out as concatenations piece by piece. -/
def createTerminalCommand (settings : PluginSettings) (folderPath : Str)
    (platform : Str) : Except Str Str :=
  match settings.terminalBin with
  | none =>
    match inferTerminalCommand platform with
    | .error error => .error error
    | .ok termCmd =>
      let quotedPath := quoteStr folderPath
      if platform = strLit "win32" then
        .ok (strLit "start /d " ++ quotedPath ++ strLit " " ++ termCmd.binary
          ++ strLit " " ++ joinSpace termCmd.args)
      else if platform = strLit "darwin" then
        .ok (strLit "open -a " ++ termCmd.binary ++ strLit " " ++ quotedPath)
      else if platform = strLit "linux" then
        .ok (termCmd.binary ++ strLit " " ++ joinSpace termCmd.args
          ++ strLit "=" ++ quotedPath)
      else
        .error (strLit "Unsupported platform")
  | some customTerminal =>
    let quotedPath := quoteStr folderPath
    let quotedTerminal := quoteStr customTerminal
    let customArgs := settings.terminalArgs.getD []
    let processedArgs := replacePath quotedPath customArgs
    if trimJS customArgs ≠ [] then
      .ok (quotedTerminal ++ strLit " " ++ processedArgs)
    else if platform = strLit "win32" then
      .ok (strLit "start /d " ++ quotedPath ++ strLit " " ++ quotedTerminal)
    else if platform = strLit "darwin" then
      .ok (strLit "open -a " ++ quotedTerminal ++ strLit " " ++ quotedPath)
    else if platform = strLit "linux" then
      .ok (quotedTerminal ++ strLit " --working-directory=" ++ quotedPath)
    else
      .error (strLit "Unsupported platform")

/-- The normalisation performed by the settings tab `onChange` handlers
(src/main.ts lines 253 and 267): `value.trim() === '' ? none :
some(value.trim())`.  This runs before a preference is stored; it is the
only place where empty-after-trim input is turned into an absent field. -/
def normalizeSetting (value : Str) : Option Str :=
  if trimJS value = [] then none else some (trimJS value)

/-! Helper lemmas about the embedded operations. -/

theorem trimJS_nil : trimJS [] = [] := rfl

theorem substDollar_cons_ne (m b a : Str) (c : Char) (s : Str) (h : c ≠ '$') :
    substDollar m b a (c :: s) = c :: substDollar m b a s := by
  rw [substDollar.eq_def]
  split
  · rename_i heq
    injection heq with h1 h2
    exact absurd h1 h
  · rename_i heq
    injection heq with h1 h2
    exact absurd h1 h
  · rename_i heq
    injection heq with h1 h2
    exact absurd h1 h
  · rename_i heq
    injection heq with h1 h2
    exact absurd h1 h
  · rename_i heq
    injection heq with h1 h2
    rw [h1, h2]
  · rename_i heq
    exact absurd heq (by simp)

theorem substDollar_no_dollar (m b a r : Str) (h : '$' ∉ r) :
    substDollar m b a r = r := by
  induction r with
  | nil => rfl
  | cons c rest ih =>
    have hc : c ≠ '$' := fun e => h (e ▸ List.mem_cons_self c rest)
    have hr : '$' ∉ rest := fun m2 => h (List.mem_cons_of_mem c m2)
    rw [substDollar_cons_ne m b a c rest hc, ih hr]

theorem replaceScan_nil (repl acc : Str) : replaceScan repl acc [] = [] := rfl

theorem replaceScan_tok (repl acc s : Str) :
    replaceScan repl acc (strLit "{path}" ++ s)
      = substDollar (strLit "{path}") acc s repl
        ++ replaceScan repl (acc ++ strLit "{path}") s := rfl

theorem replaceScan_cons_ne (repl acc : Str) (c : Char) (s : Str) (h : c ≠ '\x7b') :
    replaceScan repl acc (c :: s) = c :: replaceScan repl (acc ++ [c]) s := by
  rw [replaceScan.eq_def]
  split
  · rename_i heq
    injection heq with h1 h2
    exact absurd h1 h
  · rename_i heq
    injection heq with h1 h2
    rw [h1, h2]
  · rename_i heq
    exact absurd heq (by simp)

theorem replaceScan_cons_not_pre (repl acc : Str) (c : Char) (s : Str)
    (h : ¬ strLit "{path}" <+: (c :: s)) :
    replaceScan repl acc (c :: s) = c :: replaceScan repl (acc ++ [c]) s := by
  rw [replaceScan.eq_def]
  split
  · rename_i rest heq
    exact absurd ⟨rest, heq.symm⟩ h
  · rename_i heq
    injection heq with h1 h2
    rw [h1, h2]
  · rename_i heq
    exact absurd heq (by simp)

theorem replaceScan_not_infix (repl s : Str) (h : ¬ strLit "{path}" <:+: s) :
    ∀ acc, replaceScan repl acc s = s := by
  induction s with
  | nil =>
    intro acc
    rfl
  | cons c rest ih =>
    intro acc
    rw [List.infix_cons_iff] at h
    push_neg at h
    rw [replaceScan_cons_not_pre repl acc c rest h.1, ih h.2 (acc ++ [c])]

theorem replacePath_of_not_infix (r s : Str) (h : ¬ strLit "{path}" <:+: s) :
    replacePath r s = s := replaceScan_not_infix r s h []

theorem replaceScan_append_no_brace (repl A : Str) (hA : '\x7b' ∉ A) :
    ∀ acc s, replaceScan repl acc (A ++ s) = A ++ replaceScan repl (acc ++ A) s := by
  induction A with
  | nil =>
    intro acc s
    simp
  | cons a A ih =>
    intro acc s
    have ha : a ≠ '\x7b' := fun e => hA (e ▸ List.mem_cons_self a A)
    have hA2 : '\x7b' ∉ A := fun m2 => hA (List.mem_cons_of_mem a m2)
    rw [List.cons_append, replaceScan_cons_ne repl acc a (A ++ s) ha,
      ih hA2 (acc ++ [a]) s]
    simp

theorem replaceScan_no_brace_id (repl acc D : Str) (hD : '\x7b' ∉ D) :
    replaceScan repl acc D = D := by
  have e := replaceScan_append_no_brace repl D hD acc []
  simpa [replaceScan_nil] using e

theorem replacePath_global (r A C D : Str) (hr : '$' ∉ r)
    (hA : '\x7b' ∉ A) (hC : '\x7b' ∉ C) (hD : '\x7b' ∉ D) :
    replacePath r (A ++ strLit "{path}" ++ C ++ strLit "{path}" ++ D)
      = A ++ r ++ C ++ r ++ D := by
  unfold replacePath
  simp only [List.append_assoc]
  rw [replaceScan_append_no_brace r A hA [] _, replaceScan_tok,
    substDollar_no_dollar _ _ _ r hr,
    replaceScan_append_no_brace r C hC _ _, replaceScan_tok,
    substDollar_no_dollar _ _ _ r hr,
    replaceScan_no_brace_id r _ D hD]

theorem create_none_win32 (args : Option Str) (P : Str) :
    createTerminalCommand ⟨none, args⟩ P (strLit "win32")
      = .ok (strLit "start /d " ++ quoteStr P ++ strLit " powershell.exe -noexit") := by
  simp [createTerminalCommand, inferTerminalCommand, joinSpace, strLit, quoteStr,
    List.intercalate, List.append_assoc]

theorem create_none_darwin (args : Option Str) (P : Str) :
    createTerminalCommand ⟨none, args⟩ P (strLit "darwin")
      = .ok (strLit "open -a Terminal " ++ quoteStr P) := by
  simp [createTerminalCommand, inferTerminalCommand, joinSpace, strLit, quoteStr,
    List.intercalate, List.append_assoc]

theorem create_none_linux (args : Option Str) (P : Str) :
    createTerminalCommand ⟨none, args⟩ P (strLit "linux")
      = .ok (strLit "gnome-terminal --working-directory=" ++ quoteStr P) := by
  simp [createTerminalCommand, inferTerminalCommand, joinSpace, strLit, quoteStr,
    List.intercalate, List.append_assoc]

theorem create_custom_args (B T P plat : Str) (h : trimJS T ≠ []) :
    createTerminalCommand ⟨some B, some T⟩ P plat
      = .ok (quoteStr B ++ strLit " " ++ replacePath (quoteStr P) T) := by
  simp [createTerminalCommand, h, List.append_assoc]

theorem create_custom_default_eq_none (B P plat : Str) (args : Option Str)
    (h : trimJS (args.getD []) = []) :
    createTerminalCommand ⟨some B, args⟩ P plat
      = createTerminalCommand ⟨some B, none⟩ P plat := by
  simp [createTerminalCommand, h, trimJS_nil]

theorem create_custom_default_win32 (B P : Str) (args : Option Str)
    (h : trimJS (args.getD []) = []) :
    createTerminalCommand ⟨some B, args⟩ P (strLit "win32")
      = .ok (strLit "start /d " ++ quoteStr P ++ strLit " " ++ quoteStr B) := by
  simp [createTerminalCommand, h, strLit, quoteStr, List.append_assoc]

theorem create_custom_default_darwin (B P : Str) (args : Option Str)
    (h : trimJS (args.getD []) = []) :
    createTerminalCommand ⟨some B, args⟩ P (strLit "darwin")
      = .ok (strLit "open -a " ++ quoteStr B ++ strLit " " ++ quoteStr P) := by
  simp [createTerminalCommand, h, strLit, quoteStr, List.append_assoc]

theorem create_custom_default_linux (B P : Str) (args : Option Str)
    (h : trimJS (args.getD []) = []) :
    createTerminalCommand ⟨some B, args⟩ P (strLit "linux")
      = .ok (quoteStr B ++ strLit " --working-directory=" ++ quoteStr P) := by
  simp [createTerminalCommand, h, strLit, quoteStr, List.append_assoc]

/-! The claims. -/

/-- C1: `inferTerminalCommand` returns a terminal binary name together with
its default argument list, with no error, for each of the three recognized
platform identifiers (`win32` for Windows, `darwin` for macOS, `linux`),
and for every other identifier string it returns the unsupported-platform
error carrying that exact identifier string, with no partial result. -/
theorem C1_infer_recognized_and_unsupported :
    inferTerminalCommand (strLit "win32")
        = .ok ⟨strLit "powershell.exe", [strLit "-noexit"]⟩ ∧
    inferTerminalCommand (strLit "darwin") = .ok ⟨strLit "Terminal", []⟩ ∧
    inferTerminalCommand (strLit "linux")
        = .ok ⟨strLit "gnome-terminal", [strLit "--working-directory"]⟩ ∧
    ∀ p : Str, p ≠ strLit "win32" → p ≠ strLit "darwin" → p ≠ strLit "linux" →
      inferTerminalCommand p = .error (strLit "Unsupported platform: " ++ p) := by
  refine ⟨rfl, rfl, rfl, ?_⟩
  intro p h1 h2 h3
  simp [inferTerminalCommand, h1, h2, h3]

/-- Witness for C1 at the concrete unrecognized identifier `freebsd`. -/
theorem C1_witness :
    inferTerminalCommand (strLit "freebsd")
      = .error (strLit "Unsupported platform: " ++ strLit "freebsd") :=
  C1_infer_recognized_and_unsupported.2.2.2 (strLit "freebsd")
    (by decide) (by decide) (by decide)

/-- C2: for every folder path `P` and each recognized platform, with no
custom binary configured (whatever the argument-template field holds),
`createTerminalCommand` succeeds, the output contains `P` wrapped in
exactly one pair of double quotes (the decomposition below exhibits the
quoted path and shows no other double-quote character occurs anywhere in
the command), and the output contains the platform-appropriate inferred
binary name. -/
theorem C2_default_wraps_path_and_names_binary (args : Option Str) (P : Str) :
    (∃ cmd, createTerminalCommand ⟨none, args⟩ P (strLit "win32") = .ok cmd ∧
      (∃ pre suf, cmd = pre ++ quoteStr P ++ suf ∧ '"' ∉ pre ∧ '"' ∉ suf) ∧
      strLit "powershell.exe" <:+: cmd) ∧
    (∃ cmd, createTerminalCommand ⟨none, args⟩ P (strLit "darwin") = .ok cmd ∧
      (∃ pre suf, cmd = pre ++ quoteStr P ++ suf ∧ '"' ∉ pre ∧ '"' ∉ suf) ∧
      strLit "Terminal" <:+: cmd) ∧
    (∃ cmd, createTerminalCommand ⟨none, args⟩ P (strLit "linux") = .ok cmd ∧
      (∃ pre suf, cmd = pre ++ quoteStr P ++ suf ∧ '"' ∉ pre ∧ '"' ∉ suf) ∧
      strLit "gnome-terminal" <:+: cmd) := by
  refine ⟨⟨strLit "start /d " ++ quoteStr P ++ strLit " powershell.exe -noexit",
      create_none_win32 args P,
      ⟨strLit "start /d ", strLit " powershell.exe -noexit", rfl, by decide, by decide⟩,
      ⟨strLit "start /d " ++ quoteStr P ++ strLit " ", strLit " -noexit", ?_⟩⟩,
    ⟨strLit "open -a Terminal " ++ quoteStr P,
      create_none_darwin args P,
      ⟨strLit "open -a Terminal ", [], by simp, by decide, by decide⟩,
      ⟨strLit "open -a ", strLit " " ++ quoteStr P, ?_⟩⟩,
    ⟨strLit "gnome-terminal --working-directory=" ++ quoteStr P,
      create_none_linux args P,
      ⟨strLit "gnome-terminal --working-directory=", [], by simp, by decide, by decide⟩,
      ⟨[], strLit " --working-directory=" ++ quoteStr P, ?_⟩⟩⟩
  · simp [strLit, quoteStr, List.append_assoc]
  · simp [strLit, quoteStr, List.append_assoc]
  · simp [strLit, quoteStr, List.append_assoc]

/-- C3 counterexample: the claim states that `createTerminalCommand` fails
with an unsupported-platform error for any identifier outside the three
recognized values regardless of the configured preference.  On platform
`freebsd` with a custom binary and a non-empty argument template the code
succeeds: the custom-template branch never consults the platform. -/
theorem C3_counterexample :
    createTerminalCommand ⟨some (strLit "foo"), some (strLit "-e {path}")⟩
        (strLit "/x") (strLit "freebsd")
      = .ok (strLit "\"foo\" -e \"/x\"") := rfl

/-- C3 amended: for every platform identifier outside the three recognized
values, `createTerminalCommand` fails when no custom binary is configured
(propagating the inference error, which carries the identifier), and fails
with the bare unsupported-platform message when a custom binary is set but
the template is absent; when both a custom binary and a template that is
non-empty after trimming are configured it instead succeeds, never
consulting the platform.  `inferTerminalCommand` itself always fails there
with the error carrying that exact identifier, as for `freebsd`. -/
theorem C3_amended (p P B T : Str) (args : Option Str)
    (h1 : p ≠ strLit "win32") (h2 : p ≠ strLit "darwin") (h3 : p ≠ strLit "linux")
    (hT : trimJS T ≠ []) :
    createTerminalCommand ⟨none, args⟩ P p
        = .error (strLit "Unsupported platform: " ++ p) ∧
    createTerminalCommand ⟨some B, none⟩ P p
        = .error (strLit "Unsupported platform") ∧
    createTerminalCommand ⟨some B, some T⟩ P p
        = .ok (quoteStr B ++ strLit " " ++ replacePath (quoteStr P) T) ∧
    inferTerminalCommand p = .error (strLit "Unsupported platform: " ++ p) := by
  refine ⟨?_, ?_, create_custom_args B T P p hT, ?_⟩
  · simp [createTerminalCommand, inferTerminalCommand, h1, h2, h3]
  · simp [createTerminalCommand, trimJS_nil, h1, h2, h3]
  · simp [inferTerminalCommand, h1, h2, h3]

/-- Witness for C3 amended at platform `freebsd`. -/
theorem C3_amended_witness :
    createTerminalCommand ⟨none, none⟩ (strLit "/x") (strLit "freebsd")
        = .error (strLit "Unsupported platform: " ++ strLit "freebsd") ∧
    createTerminalCommand ⟨some (strLit "foo"), none⟩ (strLit "/x") (strLit "freebsd")
        = .error (strLit "Unsupported platform") ∧
    createTerminalCommand ⟨some (strLit "foo"), some (strLit "-e {path}")⟩
        (strLit "/x") (strLit "freebsd")
        = .ok (quoteStr (strLit "foo") ++ strLit " "
            ++ replacePath (quoteStr (strLit "/x")) (strLit "-e {path}")) ∧
    inferTerminalCommand (strLit "freebsd")
        = .error (strLit "Unsupported platform: " ++ strLit "freebsd") :=
  C3_amended (strLit "freebsd") (strLit "/x") (strLit "foo") (strLit "-e {path}") none
    (by decide) (by decide) (by decide) (by decide)

/-- C4 counterexample: the claim states that the output equals the quoted
binary, a space, and the template with every `{path}` occurrence replaced
by the double-quoted folder path verbatim.  JS `String.replace` first
applies GetSubstitution to the replacement string, so for the folder path
`a$$b` the inserted text is `"a$b"` (the `$$` collapses to `$`), not the
double-quoted path `"a$$b"`: the program output differs from the claimed
one at this input. -/
theorem C4_counterexample :
    createTerminalCommand ⟨some (strLit "x"), some (strLit "-e {path}")⟩
        (strLit "a$$b") (strLit "linux")
      = .ok (strLit "\"x\" -e \"a$b\"") ∧
    strLit "\"x\" -e \"a$b\""
      ≠ quoteStr (strLit "x") ++ strLit " " ++ strLit "-e "
          ++ quoteStr (strLit "a$$b") :=
  ⟨rfl, by decide⟩

/-- C4 amended: with a custom binary `B` and a template `T` that is
non-empty after trimming, `createTerminalCommand` succeeds on every
platform with output equal to the double-quoted `B`, a space, and `T` with
every occurrence of the literal token `{path}` replaced by the
GetSubstitution-processed double-quoted folder path; when the folder path
contains no `$` character the processed replacement is the double-quoted
path verbatim, so the original claim holds there.  The quoted binary is
literally the start of the output.  The second conjunct exhibits the
global (not first-only) replacement: in a template with two `{path}`
occurrences separated by brace-free text, both are replaced by the quoted
path. -/
theorem C4_amended (B T P plat A C D : Str)
    (hT : trimJS T ≠ []) (hP : '$' ∉ P)
    (hA : '\x7b' ∉ A) (hC : '\x7b' ∉ C) (hD : '\x7b' ∉ D) :
    createTerminalCommand ⟨some B, some T⟩ P plat
        = .ok (quoteStr B ++ strLit " " ++ replacePath (quoteStr P) T) ∧
    replacePath (quoteStr P) (A ++ strLit "{path}" ++ C ++ strLit "{path}" ++ D)
        = A ++ quoteStr P ++ C ++ quoteStr P ++ D := by
  have hq : '$' ∉ quoteStr P := by
    simp only [quoteStr, List.mem_cons, List.mem_append, List.mem_singleton]
    push_neg
    exact ⟨by decide, hP, by decide⟩
  exact ⟨create_custom_args B T P plat hT,
    replacePath_global (quoteStr P) A C D hq hA hC hD⟩

/-- Witness for C4 amended at a concrete binary, template and dollar-free
path. -/
theorem C4_amended_witness :
    createTerminalCommand ⟨some (strLit "iTerm"), some (strLit "-e {path}")⟩
        (strLit "/x") (strLit "darwin")
        = .ok (quoteStr (strLit "iTerm") ++ strLit " "
            ++ replacePath (quoteStr (strLit "/x")) (strLit "-e {path}")) ∧
    replacePath (quoteStr (strLit "/x"))
        (strLit "-e " ++ strLit "{path}" ++ strLit " " ++ strLit "{path}" ++ strLit "")
        = strLit "-e " ++ quoteStr (strLit "/x") ++ strLit " "
            ++ quoteStr (strLit "/x") ++ strLit "" :=
  C4_amended (strLit "iTerm") (strLit "-e {path}") (strLit "/x")
    (strLit "darwin") (strLit "-e ") (strLit " ") (strLit "")
    (by decide) (by decide) (by decide) (by decide) (by decide)

/-- C5 counterexample: the claim states that `createTerminalCommand` with a
configured binary that is empty (or whitespace-only) behaves identically to
the binary field being absent.  In the code the fp-ts `fold` takes the
custom branch for any present binary, so with binary `some ""` on linux the
output quotes the empty binary instead of falling back to inference. -/
theorem C5_counterexample :
    createTerminalCommand ⟨some (strLit ""), none⟩ (strLit "/x") (strLit "linux")
        = .ok (strLit "\"\" --working-directory=\"/x\"") ∧
    createTerminalCommand ⟨none, none⟩ (strLit "/x") (strLit "linux")
        = .ok (strLit "gnome-terminal --working-directory=\"/x\"") ∧
    strLit "\"\" --working-directory=\"/x\""
        ≠ strLit "gnome-terminal --working-directory=\"/x\"" :=
  ⟨rfl, rfl, by decide⟩

/-- C5 amended: the empty-after-trim normalisation of the binary field is
performed by the settings tab `onChange` handler (`normalizeSetting`), not
by `createTerminalCommand`: an empty or whitespace-only input value is
stored as an absent field, so `createTerminalCommand` over the normalised
preference coincides with the absent-binary case on every platform;
`createTerminalCommand` applied directly to a present whitespace-only
binary does not fall back to inference. -/
theorem C5_amended (value P plat : Str) (args : Option Str)
    (h : trimJS value = []) :
    normalizeSetting value = none ∧
    createTerminalCommand ⟨normalizeSetting value, args⟩ P plat
      = createTerminalCommand ⟨none, args⟩ P plat := by
  have hn : normalizeSetting value = none := by simp [normalizeSetting, h]
  exact ⟨hn, by rw [hn]⟩

/-- Witness for C5 amended at a whitespace-only input value. -/
theorem C5_amended_witness :
    normalizeSetting (strLit "  ") = none ∧
    createTerminalCommand ⟨normalizeSetting (strLit "  "), none⟩
        (strLit "/x") (strLit "linux")
      = createTerminalCommand ⟨none, none⟩ (strLit "/x") (strLit "linux") :=
  C5_amended (strLit "  ") (strLit "/x") (strLit "linux") none (by decide)

/-- C6 counterexample: the claim states that with a custom binary and an
absent template the output is the platform-default command shape with the
quoted binary substituted in place of the inferred binary.  On windows the
inferred default shape carries the default argument `-noexit` after the
binary, but the custom-binary output drops it, so the output is not the
default shape with only the binary replaced. -/
theorem C6_counterexample :
    createTerminalCommand ⟨some (strLit "wt"), none⟩ (strLit "/x") (strLit "win32")
        = .ok (strLit "start /d \"/x\" \"wt\"") ∧
    createTerminalCommand ⟨none, none⟩ (strLit "/x") (strLit "win32")
        = .ok (strLit "start /d \"/x\" powershell.exe -noexit") ∧
    strLit "-noexit" <:+: strLit "start /d \"/x\" powershell.exe -noexit" ∧
    ¬ strLit "-noexit" <:+: strLit "start /d \"/x\" \"wt\"" :=
  ⟨rfl, rfl, by decide, by decide⟩

/-- C6 amended: with a custom binary `B` and a template that is absent,
empty or whitespace-only, the output is identical for the absent and the
empty-after-trim template cases, and equals the platform-default shape
with the quoted `B` in the binary position — exactly on macOS and linux,
while on windows the inferred default argument list (`-noexit`) is dropped,
producing `start /d "P" "B"` with no trailing arguments. -/
theorem C6_amended (B P plat : Str) (args : Option Str)
    (h : trimJS (args.getD []) = []) :
    createTerminalCommand ⟨some B, args⟩ P (strLit "win32")
        = .ok (strLit "start /d " ++ quoteStr P ++ strLit " " ++ quoteStr B) ∧
    createTerminalCommand ⟨some B, args⟩ P (strLit "darwin")
        = .ok (strLit "open -a " ++ quoteStr B ++ strLit " " ++ quoteStr P) ∧
    createTerminalCommand ⟨some B, args⟩ P (strLit "linux")
        = .ok (quoteStr B ++ strLit " --working-directory=" ++ quoteStr P) ∧
    createTerminalCommand ⟨some B, args⟩ P plat
        = createTerminalCommand ⟨some B, none⟩ P plat :=
  ⟨create_custom_default_win32 B P args h, create_custom_default_darwin B P args h,
    create_custom_default_linux B P args h, create_custom_default_eq_none B P plat args h⟩

/-- Witness for C6 amended at a concrete binary and a whitespace-only
template. -/
theorem C6_amended_witness :
    createTerminalCommand ⟨some (strLit "wt"), some (strLit " ")⟩
        (strLit "/x") (strLit "win32")
        = .ok (strLit "start /d " ++ quoteStr (strLit "/x") ++ strLit " "
            ++ quoteStr (strLit "wt")) ∧
    createTerminalCommand ⟨some (strLit "wt"), some (strLit " ")⟩
        (strLit "/x") (strLit "darwin")
        = .ok (strLit "open -a " ++ quoteStr (strLit "wt") ++ strLit " "
            ++ quoteStr (strLit "/x")) ∧
    createTerminalCommand ⟨some (strLit "wt"), some (strLit " ")⟩
        (strLit "/x") (strLit "linux")
        = .ok (quoteStr (strLit "wt") ++ strLit " --working-directory="
            ++ quoteStr (strLit "/x")) ∧
    createTerminalCommand ⟨some (strLit "wt"), some (strLit " ")⟩
        (strLit "/x") (strLit "linux")
        = createTerminalCommand ⟨some (strLit "wt"), none⟩ (strLit "/x") (strLit "linux") :=
  C6_amended (strLit "wt") (strLit "/x") (strLit "linux") (some (strLit " ")) (by decide)

/-- C7: on linux with no custom binary, for the folder path
`/home/user/My Notes`, the built command is exactly
`gnome-terminal --working-directory="/home/user/My Notes"`. -/
theorem C7_linux_default_scenario :
    createTerminalCommand DEFAULT_SETTINGS (strLit "/home/user/My Notes") (strLit "linux")
      = .ok (strLit "gnome-terminal --working-directory=\"/home/user/My Notes\"") := rfl

/-- C8: on macOS with custom binary `iTerm` and template `-e "ls {path}"`,
for folder path `/home/user/My Notes`, the built command is exactly the
literal `"iTerm" -e "ls "/home/user/My Notes""` — the quote characters
introduced by the substituted quoted path are left unescaped. -/
theorem C8_macos_custom_template_scenario :
    createTerminalCommand ⟨some (strLit "iTerm"), some (strLit "-e \"ls {path}\"")⟩
        (strLit "/home/user/My Notes") (strLit "darwin")
      = .ok (strLit "\"iTerm\" -e \"ls \"/home/user/My Notes\"\"") := rfl

/-- C9 counterexample: the claim states that with a custom binary and a
non-empty template containing no `{path}` token, the output never contains
the folder path.  The output is in fact independent of the path, but the
path string can coincidentally occur in it: with binary `a`, template `b`
and folder path `a`, the output `"a" b` contains the path `a`. -/
theorem C9_counterexample :
    createTerminalCommand ⟨some (strLit "a"), some (strLit "b")⟩
        (strLit "a") (strLit "linux")
        = .ok (strLit "\"a\" b") ∧
    trimJS (strLit "b") ≠ [] ∧
    ¬ strLit "{path}" <:+: strLit "b" ∧
    strLit "a" <:+: strLit "\"a\" b" :=
  ⟨rfl, by decide, by decide, by decide⟩

/-- C9 amended: with a custom binary and a template that is non-empty
after trimming and contains no occurrence of the `{path}` token, the
output is exactly the quoted binary, a space, and the template unchanged,
and is therefore independent of the folder path: the path reaches the
output only through placeholder substitution, though the path string may
still occur coincidentally as part of the binary or template text. -/
theorem C9_amended (B T P Q plat : Str)
    (hT : trimJS T ≠ []) (hTok : ¬ strLit "{path}" <:+: T) :
    createTerminalCommand ⟨some B, some T⟩ P plat
        = .ok (quoteStr B ++ strLit " " ++ T) ∧
    createTerminalCommand ⟨some B, some T⟩ P plat
        = createTerminalCommand ⟨some B, some T⟩ Q plat := by
  have e : ∀ R : Str, createTerminalCommand ⟨some B, some T⟩ R plat
      = .ok (quoteStr B ++ strLit " " ++ T) := by
    intro R
    rw [create_custom_args B T R plat hT, replacePath_of_not_infix (quoteStr R) T hTok]
  exact ⟨e P, (e P).trans (e Q).symm⟩

/-- Witness for C9 amended at a concrete token-free template and two
distinct folder paths. -/
theorem C9_amended_witness :
    createTerminalCommand ⟨some (strLit "wt"), some (strLit "-e ls")⟩
        (strLit "/x") (strLit "linux")
        = .ok (quoteStr (strLit "wt") ++ strLit " " ++ strLit "-e ls") ∧
    createTerminalCommand ⟨some (strLit "wt"), some (strLit "-e ls")⟩
        (strLit "/x") (strLit "linux")
        = createTerminalCommand ⟨some (strLit "wt"), some (strLit "-e ls")⟩
            (strLit "/y") (strLit "linux") :=
  C9_amended (strLit "wt") (strLit "-e ls") (strLit "/x") (strLit "/y") (strLit "linux")
    (by decide) (by decide)

/-- C10: whenever a custom binary is configured (the preference field is
present) and `createTerminalCommand` succeeds, the custom binary wrapped in
double quotes occurs in the output — on every platform and in both the
custom-template branch and the platform-default-shape branches. -/
theorem C10_custom_binary_quoted (B P plat cmd : Str) (args : Option Str)
    (h : createTerminalCommand ⟨some B, args⟩ P plat = .ok cmd) :
    quoteStr B <:+: cmd := by
  simp only [createTerminalCommand] at h
  split_ifs at h with h1 h2 h3 h4
  all_goals rw [Except.ok.injEq] at h
  · exact ⟨[], strLit " " ++ replacePath (quoteStr P) (args.getD []),
      by rw [← h]; simp [List.append_assoc]⟩
  · exact ⟨strLit "start /d " ++ quoteStr P ++ strLit " ", [],
      by rw [← h]; simp [List.append_assoc]⟩
  · exact ⟨strLit "open -a ", strLit " " ++ quoteStr P,
      by rw [← h]; simp [List.append_assoc]⟩
  · exact ⟨[], strLit " --working-directory=" ++ quoteStr P,
      by rw [← h]; simp [List.append_assoc]⟩

/-- Witness for C10 at a concrete custom binary on windows. -/
theorem C10_witness :
    quoteStr (strLit "wt") <:+: strLit "start /d \"/x\" \"wt\"" :=
  C10_custom_binary_quoted (strLit "wt") (strLit "/x") (strLit "win32")
    (strLit "start /d \"/x\" \"wt\"") none rfl
